import Mathlib

/-!
# Verification of the SplinterDB public façade (splinterdb.c, default_data_config.c)

Shallow embedding of the variable-length key shim, the default data-config
message codec, configuration defaulting/validation, and the lifecycle
operations of the SplinterDB public API.  Byte buffers are modelled as
`List Nat` with explicit `% 256` where the C code narrows to `uint8`.
A C `platform_assert` failure aborts the process; it is modelled by an
`Option`-valued result whose `none` case marks the abort.

The file is organised as definitions (translated from the source) followed
by the theorems about them.
-/

namespace SplinterDB

/-! ## Definitions: constants -/

/-- errno EINVAL, the value behind `STATUS_BAD_PARAM` and the codecs'
`InvalidArg` returns (spec §6.1: `BadParam=22`). -/
def EINVAL : Nat := 22

/-- errno ENOMEM, the value behind `STATUS_NO_MEMORY` (spec §6.1: `NoMemory=12`). -/
def ENOMEM : Nat := 12

/-- Modelled from the spec: `SPLINTERDB_MAX_KEY_SIZE` is defined in the public
header (not under src/).  The source's static_asserts pin
`SPLINTERDB_MAX_KEY_SIZE + 1 = MAX_KEY_SIZE`, `8 ≤ MAX_KEY_SIZE ≤ 105` and
`SPLINTERDB_MAX_KEY_SIZE ≤ 255`; we take the maximal admitted value 104. -/
def SPLINTERDB_MAX_KEY_SIZE : Nat := 104

/-- Modelled from the spec: the engine's fixed physical key-slot width.
`MAX_KEY_SIZE = SPLINTERDB_MAX_KEY_SIZE + sizeof(var_len_key_encoding)`
per the source's static_assert. -/
def MAX_KEY_SIZE : Nat := 105

/-- Modelled from the spec: the message-type codes of `message_type`
(declared in data.h, not under src/): `Insert=1, Delete=2, Update=3`
(spec §3, EncodedMessage). -/
def MESSAGE_TYPE_INSERT : Nat := 1

/-- Modelled from the spec: code of `MESSAGE_TYPE_DELETE` (spec §3). -/
def MESSAGE_TYPE_DELETE : Nat := 2

/-- Modelled from the spec: code of `MESSAGE_TYPE_UPDATE` (spec §3). -/
def MESSAGE_TYPE_UPDATE : Nat := 3

/-- Modelled from the spec: `LAIO_DEFAULT_PAGE_SIZE` (laio.h, not under
src/) — "page_size = 4096" (spec §4.4.1). -/
def LAIO_DEFAULT_PAGE_SIZE : Nat := 4096

/-- Modelled from the spec: `LAIO_DEFAULT_EXTENT_SIZE` (laio.h, not under
src/) — "extent_size = 128·page_size" with the default page size (spec
§4.4.1). -/
def LAIO_DEFAULT_EXTENT_SIZE : Nat := 128 * 4096

/-- Modelled from the spec: Linux `O_RDWR` (fcntl.h). -/
def O_RDWR : Nat := 2

/-- Modelled from the spec: Linux `O_CREAT` (fcntl.h). -/
def O_CREAT : Nat := 64

/-! ## Definitions: key codec and shim (splinterdb.c) -/

/-- Result of `encode_key`: the returned error code together with the state
of the output buffer after the call (the buffer is threaded explicitly so
that non-modification on error is expressible). -/
structure EncodeResult where
  rc : Nat
  buffer : List Nat
deriving Repr, DecidableEq

/-- `encode_key` (splinterdb.c): rejects keys longer than
`SPLINTERDB_MAX_KEY_SIZE` with `EINVAL` before touching the buffer;
then asserts the buffer is exactly `MAX_KEY_SIZE` bytes (`none` = assert
abort); then zero-fills the buffer, writes the one-byte length prefix
(`(uint8)slice_length`, i.e. `% 256`) and copies the payload. -/
def encode_key (out_key_buffer : List Nat) (in_key : List Nat) :
    Option EncodeResult :=
  if in_key.length > SPLINTERDB_MAX_KEY_SIZE then
    some ⟨EINVAL, out_key_buffer⟩
  else if out_key_buffer.length ≠ MAX_KEY_SIZE then
    none
  else
    some ⟨0, (in_key.length % 256) ::
      (in_key ++ List.replicate (MAX_KEY_SIZE - 1 - in_key.length) 0)⟩

/-- The key extraction performed by `splinterdb_iterator_get_current`
(splinterdb.c): reads the one-byte length prefix, asserts it is at most
`SPLINTERDB_MAX_KEY_SIZE` (`none` = assert abort), and returns the logical
slice `(length, data)`. -/
def get_current_key (buf : List Nat) : Option (List Nat) :=
  if buf.headD 0 > SPLINTERDB_MAX_KEY_SIZE then none
  else some ((buf.drop 1).take (buf.headD 0))

/-- `splinterdb_shim_key_compare` (splinterdb.c): reads both length
prefixes, asserts each is at most `SPLINTERDB_MAX_KEY_SIZE` (`none` =
assert abort), and forwards the logical slices to the application
comparator. -/
def splinterdb_shim_key_compare (app_key_compare : List Nat → List Nat → Int)
    (key1_raw key2_raw : List Nat) : Option Int :=
  if key1_raw.headD 0 > SPLINTERDB_MAX_KEY_SIZE ∨
     key2_raw.headD 0 > SPLINTERDB_MAX_KEY_SIZE then none
  else some (app_key_compare ((key1_raw.drop 1).take (key1_raw.headD 0))
                             ((key2_raw.drop 1).take (key2_raw.headD 0)))

/-! ## Definitions: messages and point operations (splinterdb.c) -/

/-- A `message` as handed to the engine: a message-type code paired with
the value payload (`message_create(type, value)`). -/
structure Message where
  kind : Nat
  data : List Nat
deriving Repr, DecidableEq

/-- The pre-built `DELETE_MESSAGE` sentinel forwarded by `splinterdb_delete`. -/
def DELETE_MESSAGE : Message := ⟨MESSAGE_TYPE_DELETE, []⟩

/-- The façade state used by the point operations: the application
data-config's declared `key_size` plus an abstract engine state of type
`σ` (the trunk is an external collaborator). -/
structure SplinterDBModel (σ : Type) where
  app_key_size : Nat
  engine : σ

/-- `validate_key_length` (splinterdb.c): `EINVAL` when the key length
exceeds the application data-config's `key_size`, else 0. -/
def validate_key_length {σ : Type} (kvs : SplinterDBModel σ) (key_length : Nat) : Nat :=
  if key_length > kvs.app_key_size then EINVAL else 0

/-- `splinterdb_insert_message` (splinterdb.c): validate the key length,
encode the key onto a zeroed `MAX_KEY_SIZE` stack buffer, then submit to
the engine via `trunk_insert` (passed in as a parameter since the trunk is
external).  `none` marks a `platform_assert` abort inside `encode_key`. -/
def splinterdb_insert_message {σ : Type}
    (trunk_insert : σ → List Nat → Message → σ × Nat)
    (kvs : SplinterDBModel σ) (key : List Nat) (msg : Message) :
    Option (SplinterDBModel σ × Nat) :=
  let rc := validate_key_length kvs key.length
  if rc ≠ 0 then some (kvs, rc)
  else match encode_key (List.replicate MAX_KEY_SIZE 0) key with
    | none => none
    | some er =>
      if er.rc ≠ 0 then some (kvs, er.rc)
      else
        let res := trunk_insert kvs.engine er.buffer msg
        some ({ kvs with engine := res.1 }, res.2)

/-- `splinterdb_insert`: builds an Insert message and forwards. -/
def splinterdb_insert {σ : Type} (trunk_insert : σ → List Nat → Message → σ × Nat)
    (kvs : SplinterDBModel σ) (key value : List Nat) :
    Option (SplinterDBModel σ × Nat) :=
  splinterdb_insert_message trunk_insert kvs key ⟨MESSAGE_TYPE_INSERT, value⟩

/-- `splinterdb_delete`: forwards the pre-built `DELETE_MESSAGE`. -/
def splinterdb_delete {σ : Type} (trunk_insert : σ → List Nat → Message → σ × Nat)
    (kvs : SplinterDBModel σ) (key : List Nat) :
    Option (SplinterDBModel σ × Nat) :=
  splinterdb_insert_message trunk_insert kvs key DELETE_MESSAGE

/-- `splinterdb_update`: builds an Update message and forwards. -/
def splinterdb_update {σ : Type} (trunk_insert : σ → List Nat → Message → σ × Nat)
    (kvs : SplinterDBModel σ) (key update : List Nat) :
    Option (SplinterDBModel σ × Nat) :=
  splinterdb_insert_message trunk_insert kvs key ⟨MESSAGE_TYPE_UPDATE, update⟩

/-- `splinterdb_lookup` (splinterdb.c): validate the key length, encode the
key, then call the engine's `trunk_lookup` with the result accumulator
(`α` models the `merge_accumulator`; the engine is read-only on `σ`).
Returns the accumulator state after the call and the status code. -/
def splinterdb_lookup {σ α : Type} (trunk_lookup : σ → List Nat → α → α × Nat)
    (kvs : SplinterDBModel σ) (key : List Nat) (result : α) :
    Option (α × Nat) :=
  let rc := validate_key_length kvs key.length
  if rc ≠ 0 then some (result, rc)
  else match encode_key (List.replicate MAX_KEY_SIZE 0) key with
    | none => none
    | some er =>
      if er.rc ≠ 0 then some (result, er.rc)
      else some (trunk_lookup kvs.engine er.buffer result)

/-! ## Definitions: default data-config message codec (default_data_config.c) -/

/-- `encode_message` (default_data_config.c): writes the type tag into the
first byte of the destination buffer, *then* checks capacity — returning
`EINVAL` with the tag already stored when `value_len + sizeof(header)`
exceeds the buffer length — and otherwise copies the payload after the
header.  Returns the error code, the destination buffer state after the
call, and `*out_encoded_len` (`none` when not written). -/
def encode_message (type : Nat) (value : List Nat) (dst_msg_buffer : List Nat) :
    Nat × List Nat × Option Nat :=
  let dst1 := dst_msg_buffer.set 0 (type % 256)
  if value.length + 1 > dst_msg_buffer.length then
    (EINVAL, dst1, none)
  else
    (0, dst1.take 1 ++ value ++ dst1.drop (1 + value.length),
      some (1 + value.length))

/-- `decode_message` (default_data_config.c): rejects buffers shorter than
the one-byte header, else returns the payload slice. -/
def decode_message (msg_buffer : List Nat) : Except Nat (List Nat) :=
  if msg_buffer.length < 1 then .error EINVAL
  else .ok (msg_buffer.drop 1)

/-- `message_class` (default_data_config.c): switch on the header byte;
Insert and Delete are returned as themselves, anything else is a fatal
`platform_assert(FALSE)` (modelled as `none`). -/
def message_class (raw_msg : List Nat) : Option Nat :=
  if raw_msg.headD 0 = MESSAGE_TYPE_INSERT then some MESSAGE_TYPE_INSERT
  else if raw_msg.headD 0 = MESSAGE_TYPE_DELETE then some MESSAGE_TYPE_DELETE
  else none

/-! ## Definitions: configuration defaulting and open-time validation -/

/-- Modelled from the spec: `slice_lex_cmp` (util.c, not under src/) — the
default data-config's "lexicographical sort-order (memcmp)" comparator
(spec §6.4). -/
def slice_lex_cmp : List Nat → List Nat → Int
  | [], [] => 0
  | [], _ :: _ => -1
  | _ :: _, [] => 1
  | a :: as, b :: bs =>
    if a < b then -1 else if b < a then 1 else slice_lex_cmp as bs

/-- The application `data_config` fields inspected by the façade
(splinterdb_private.h / data.h; the callback bundle is reduced to the one
callback the validation and shim actually invoke, `key_compare`). -/
structure data_config where
  key_size : Nat
  min_key : List Nat
  min_key_length : Nat
  max_key : List Nat
  max_key_length : Nat
  key_compare : List Nat → List Nat → Int

/-- `splinterdb_config` (splinterdb.h): the caller-facing configuration
consumed by `splinterdb_config_set_defaults` and
`splinterdb_init_config`. -/
structure splinterdb_config where
  filename : Option String
  cache_size : Nat
  disk_size : Nat
  data_cfg : data_config
  page_size : Nat
  extent_size : Nat
  io_flags : Nat
  io_perms : Nat
  io_async_queue_depth : Nat
  btree_rough_count_height : Nat
  filter_index_size : Nat
  filter_remainder_size : Nat
  memtable_capacity : Nat
  fanout : Nat
  max_branches_per_node : Nat
  reclaim_threshold : Nat
  use_log : Bool
  use_stats : Bool

/-- `splinterdb_config_set_defaults` (splinterdb.c): each zero field takes
its default; each statement `if (!cfg->x) cfg->x = d;` reads only the
field it sets, so the in-place sequence is a per-field update. -/
def splinterdb_config_set_defaults (cfg : splinterdb_config) : splinterdb_config :=
  { cfg with
    page_size := if cfg.page_size = 0 then LAIO_DEFAULT_PAGE_SIZE else cfg.page_size
    extent_size := if cfg.extent_size = 0 then LAIO_DEFAULT_EXTENT_SIZE else cfg.extent_size
    io_flags := if cfg.io_flags = 0 then O_RDWR ||| O_CREAT else cfg.io_flags
    io_perms := if cfg.io_perms = 0 then 0o755 else cfg.io_perms
    io_async_queue_depth :=
      if cfg.io_async_queue_depth = 0 then 256 else cfg.io_async_queue_depth
    btree_rough_count_height :=
      if cfg.btree_rough_count_height = 0 then 1 else cfg.btree_rough_count_height
    filter_index_size :=
      if cfg.filter_index_size = 0 then 256 else cfg.filter_index_size
    filter_remainder_size :=
      if cfg.filter_remainder_size = 0 then 6 else cfg.filter_remainder_size
    memtable_capacity :=
      if cfg.memtable_capacity = 0 then 24 * 1024 * 1024 else cfg.memtable_capacity
    fanout := if cfg.fanout = 0 then 8 else cfg.fanout
    max_branches_per_node :=
      if cfg.max_branches_per_node = 0 then 24 else cfg.max_branches_per_node
    reclaim_threshold :=
      if cfg.reclaim_threshold = 0 then 2 ^ 64 - 1 else cfg.reclaim_threshold }

/-- Outcome of a validation routine whose checks mix `platform_assert`
(fatal process abort) with error-status returns. -/
inductive ValidateOutcome where
  | ok
  | badParam
  | assertViolation
deriving DecidableEq, Repr

/-- `splinterdb_validate_app_data_config` (splinterdb.c), checks in source
order: `platform_assert(key_size > 0)`; return `STATUS_BAD_PARAM` when
`key_size > SPLINTERDB_MAX_KEY_SIZE`; `platform_assert(max_key_length >
0)`, `platform_assert(max_key_length ≤ key_size)`,
`platform_assert(min_key_length ≤ key_size)`,
`platform_assert(key_compare(min_key, max_key) < 0)`.  (The callback
non-NULL asserts cannot be modelled: Lean functions are total values.) -/
def splinterdb_validate_app_data_config (cfg : data_config) : ValidateOutcome :=
  if cfg.key_size = 0 then .assertViolation
  else if cfg.key_size > SPLINTERDB_MAX_KEY_SIZE then .badParam
  else if cfg.max_key_length = 0 then .assertViolation
  else if cfg.max_key_length > cfg.key_size then .assertViolation
  else if cfg.min_key_length > cfg.key_size then .assertViolation
  else if cfg.key_compare (cfg.min_key.take cfg.min_key_length)
            (cfg.max_key.take cfg.max_key_length) < 0 then .ok
  else .assertViolation

/-- The validation phase of `splinterdb_init_config` (splinterdb.c):
validate the app data-config, then require `filename`, `cache_size` and
`disk_size` to be set, returning `STATUS_BAD_PARAM` otherwise. -/
def splinterdb_init_config_validate (cfg : splinterdb_config) : ValidateOutcome :=
  match splinterdb_validate_app_data_config cfg.data_cfg with
  | .ok =>
    if cfg.filename = none ∨ cfg.cache_size = 0 ∨ cfg.disk_size = 0
    then .badParam else .ok
  | r => r

/-- `splinterdb_create_or_open` (splinterdb.c), validation phase: on a
`STATUS_BAD_PARAM` from `splinterdb_init_config` the code jumps to
`deinit_kvhandle`, frees the store object and returns 22 with the caller's
out-parameter (`out0`) untouched; an assert abort never returns (`none`).
Everything after successful validation (io handle, task system, allocator,
cache, trunk — all external collaborators) is abstracted by `rest`. -/
def splinterdb_create_or_open (rest : Nat × Option Nat)
    (cfg : splinterdb_config) (out0 : Option Nat) : Option (Nat × Option Nat) :=
  match splinterdb_init_config_validate cfg with
  | .assertViolation => none
  | .badParam => some (EINVAL, out0)
  | .ok => some rest

/-- A well-formed configuration in the shape produced by
`default_data_config_init`, except that `min_key_length = 0` — which the
spec's §3 invariant `0 < min_key_length` forbids. -/
def cfg_zero_min_key : splinterdb_config :=
  { filename := some "db"
    cache_size := 1000
    disk_size := 1000
    data_cfg :=
      { key_size := 8
        min_key := []
        min_key_length := 0
        max_key := List.replicate 8 255
        max_key_length := 8
        key_compare := slice_lex_cmp }
    page_size := 0, extent_size := 0, io_flags := 0, io_perms := 0
    io_async_queue_depth := 0, btree_rough_count_height := 0
    filter_index_size := 0, filter_remainder_size := 0
    memtable_capacity := 0, fanout := 0, max_branches_per_node := 0
    reclaim_threshold := 0, use_log := false, use_stats := false }

/-! ## Definitions: close protocol and iterator initialization -/

/-- The teardown actions `splinterdb_close` can perform, in the order the
source lists them. -/
inductive TeardownStep where
  | unmount_trunk
  | deinit_cache
  | unmount_allocator
  | deinit_io_handle
  | destroy_task_system
  | destroy_heap
deriving DecidableEq, Repr

/-- `splinterdb_close` (splinterdb.c): takes the caller's store pointer
(`some h` = open store handle, `none` = already nulled), asserts it is
non-NULL (`none` result = `platform_assert` abort), performs the teardown
sequence, and nulls the caller's pointer.  Returns the teardown trace and
the caller's pointer after the call. -/
def splinterdb_close (kvs_in : Option Nat) :
    Option (List TeardownStep × Option Nat) :=
  match kvs_in with
  | none => none
  | some _ =>
    some ([TeardownStep.unmount_trunk, TeardownStep.deinit_cache,
           TeardownStep.unmount_allocator, TeardownStep.deinit_io_handle,
           TeardownStep.destroy_task_system, TeardownStep.destroy_heap],
          none)

/-- Result of `splinterdb_iterator_init`: return code, the set of live
heap allocations after the call, the pointers passed to `platform_free`,
whether `trunk_range_iterator_deinit` ran, and the caller's `*iter`
out-parameter after the call. -/
structure IterInitOutcome where
  rc : Nat
  heap : List Nat
  freed : List Nat
  underlying_deinited : Bool
  iterSlot : Option Nat
deriving DecidableEq, Repr

/-- `splinterdb_iterator_init` (splinterdb.c) with the heap made explicit:
`heap0` holds the live allocations, `freshPtr` the address `TYPED_MALLOC`
returns for the wrapper `it` when `mallocOk`, `iterSlot0` the (caller-
uninitialized) prior contents of `*iter`, and `trunkRc` the status of the
external `trunk_range_iterator_init`.  On trunk failure the source runs
`trunk_range_iterator_deinit(range_itor)` and then
`platform_free(kvs->spl->heap_id, *iter)` — freeing the caller's old
`*iter` value, not the wrapper `it` — and returns the error code without
writing `*iter`. -/
def splinterdb_iterator_init (heap0 : List Nat) (freshPtr : Nat)
    (mallocOk : Bool) (iterSlot0 : Option Nat) (startKey : Option (List Nat))
    (trunkRc : Nat) : IterInitOutcome :=
  if ¬mallocOk then ⟨ENOMEM, heap0, [], false, iterSlot0⟩
  else
    let heap1 := freshPtr :: heap0
    let encRc : Nat :=
      match startKey with
      | none => 0
      | some k => if k.length > SPLINTERDB_MAX_KEY_SIZE then EINVAL else 0
    if encRc ≠ 0 then
      ⟨encRc, heap1, [], false, iterSlot0⟩
    else if trunkRc ≠ 0 then
      ⟨trunkRc,
       (match iterSlot0 with | some p => heap1.erase p | none => heap1),
       (match iterSlot0 with | some p => [p] | none => []),
       true, iterSlot0⟩
    else ⟨0, heap1, [], false, some freshPtr⟩

/-! ## Helper lemmas -/

lemma getD_replicate_zero (n i : Nat) : (List.replicate n (0 : Nat)).getD i 0 = 0 := by
  rcases Nat.lt_or_ge i n with h | h
  · simp [List.getD, List.getElem?_replicate, h]
  · simp [List.getD, List.getElem?_eq_none, h]

lemma encode_key_success (k : List Nat) (buf : List Nat)
    (hk : k.length ≤ SPLINTERDB_MAX_KEY_SIZE) (hb : buf.length = MAX_KEY_SIZE) :
    encode_key buf k =
      some ⟨0, k.length :: (k ++ List.replicate (MAX_KEY_SIZE - 1 - k.length) 0)⟩ := by
  have hlt : k.length < 256 := by
    have : SPLINTERDB_MAX_KEY_SIZE < 256 := by decide
    omega
  simp [encode_key, Nat.not_lt.mpr hk, hb, Nat.mod_eq_of_lt hlt]

/-! ## Claim theorems -/

/-- **C1** — Key round-trip: for every logical key `k` with
`|k| ≤ SPLINTERDB_MAX_KEY_SIZE`, encoding `k` with `encode_key` into a
`MAX_KEY_SIZE` buffer succeeds (rc 0), decoding the result as
`splinterdb_iterator_get_current` does yields exactly the bytes of `k`,
and every buffer byte past the header and the copied payload is zero. -/
theorem key_encode_roundtrip (k : List Nat) (buf : List Nat)
    (hk : k.length ≤ SPLINTERDB_MAX_KEY_SIZE) (hb : buf.length = MAX_KEY_SIZE) :
    ∃ enc : List Nat,
      encode_key buf k = some ⟨0, enc⟩ ∧
      get_current_key enc = some k ∧
      ∀ i, 1 + k.length ≤ i → enc.getD i 0 = 0 := by
  refine ⟨k.length :: (k ++ List.replicate (MAX_KEY_SIZE - 1 - k.length) 0),
    encode_key_success k buf hk hb, ?_, ?_⟩
  · have htake : (k ++ List.replicate (MAX_KEY_SIZE - 1 - k.length) 0).take k.length = k :=
      List.take_left k _
    simp [get_current_key, Nat.not_lt.mpr hk, htake]
  · intro i hi
    rcases i with _ | j
    · omega
    · have hj : k.length ≤ j := by omega
      simp only [List.getD_cons_succ]
      rw [List.getD_append_right _ _ _ _ hj]
      exact getD_replicate_zero _ _

/-- Witness for `key_encode_roundtrip` at a concrete key and buffer. -/
theorem key_encode_roundtrip_witness :
    ∃ enc : List Nat,
      encode_key (List.replicate MAX_KEY_SIZE 0) [10, 20, 30] = some ⟨0, enc⟩ ∧
      get_current_key enc = some [10, 20, 30] ∧
      ∀ i, 1 + (3 : Nat) ≤ i → enc.getD i 0 = 0 := by
  have h := key_encode_roundtrip [10, 20, 30] (List.replicate MAX_KEY_SIZE 0)
    (by decide) (by simp)
  simpa using h

/-- **C2** — Comparator monotonicity under encoding: for all logical keys
`a` and `b` with lengths at most `SPLINTERDB_MAX_KEY_SIZE`, the shim
comparator applied to the encoded forms succeeds (no assert) and its sign
equals the sign of the application comparator applied to `a` and `b`. -/
theorem shim_compare_sign (app_key_compare : List Nat → List Nat → Int)
    (a b : List Nat)
    (ha : a.length ≤ SPLINTERDB_MAX_KEY_SIZE)
    (hb : b.length ≤ SPLINTERDB_MAX_KEY_SIZE) :
    ∃ ea eb : EncodeResult,
      encode_key (List.replicate MAX_KEY_SIZE 0) a = some ea ∧
      encode_key (List.replicate MAX_KEY_SIZE 0) b = some eb ∧
      Option.map Int.sign
          (splinterdb_shim_key_compare app_key_compare ea.buffer eb.buffer)
        = some (Int.sign (app_key_compare a b)) := by
  refine ⟨⟨0, a.length :: (a ++ List.replicate (MAX_KEY_SIZE - 1 - a.length) 0)⟩,
          ⟨0, b.length :: (b ++ List.replicate (MAX_KEY_SIZE - 1 - b.length) 0)⟩,
          encode_key_success a _ ha (by simp),
          encode_key_success b _ hb (by simp), ?_⟩
  have hta : (a ++ List.replicate (MAX_KEY_SIZE - 1 - a.length) 0).take a.length = a :=
    List.take_left a _
  have htb : (b ++ List.replicate (MAX_KEY_SIZE - 1 - b.length) 0).take b.length = b :=
    List.take_left b _
  simp [splinterdb_shim_key_compare, Nat.not_lt.mpr ha, Nat.not_lt.mpr hb, hta, htb]

/-- Witness for `shim_compare_sign` at concrete keys and a concrete
comparator. -/
theorem shim_compare_sign_witness :
    ∃ ea eb : EncodeResult,
      encode_key (List.replicate MAX_KEY_SIZE 0) [1, 2] = some ea ∧
      encode_key (List.replicate MAX_KEY_SIZE 0) [3] = some eb ∧
      Option.map Int.sign
          (splinterdb_shim_key_compare
            (fun x y => (x.headD 0 : Int) - (y.headD 0 : Int)) ea.buffer eb.buffer)
        = some (Int.sign ((fun x y : List Nat => (x.headD 0 : Int) - (y.headD 0 : Int)) [1, 2] [3])) := by
  exact shim_compare_sign (fun x y => (x.headD 0 : Int) - (y.headD 0 : Int))
    [1, 2] [3] (by decide) (by decide)

/-- **C3** — Key-encode length rejection: for every logical key `k` with
`|k| > SPLINTERDB_MAX_KEY_SIZE`, `encode_key` returns `EINVAL` and leaves
the output key buffer entirely unmodified. -/
theorem encode_key_rejects_long (k : List Nat) (buf : List Nat)
    (hk : k.length > SPLINTERDB_MAX_KEY_SIZE) :
    encode_key buf k = some ⟨EINVAL, buf⟩ := by
  simp [encode_key, hk]

/-- Witness for `encode_key_rejects_long` at a concrete 105-byte key. -/
theorem encode_key_rejects_long_witness :
    encode_key (List.replicate MAX_KEY_SIZE 0) (List.replicate 105 7)
      = some ⟨EINVAL, List.replicate MAX_KEY_SIZE 0⟩ :=
  encode_key_rejects_long (List.replicate 105 7) (List.replicate MAX_KEY_SIZE 0)
    (by decide)

/-- **C4** — Point-operation key-length validation: whenever a key slice is
longer than the application data-config's `key_size`, each of insert,
delete, update and lookup returns `EINVAL` (22) and submits nothing to the
engine: the store state (resp. the lookup accumulator) is returned
unchanged, whatever the engine's transition functions. -/
theorem point_ops_reject_long_key {σ α : Type}
    (trunk_insert : σ → List Nat → Message → σ × Nat)
    (trunk_lookup : σ → List Nat → α → α × Nat)
    (kvs : SplinterDBModel σ) (key : List Nat) (value delta : List Nat) (acc : α)
    (h : key.length > kvs.app_key_size) :
    splinterdb_insert trunk_insert kvs key value = some (kvs, EINVAL) ∧
    splinterdb_delete trunk_insert kvs key = some (kvs, EINVAL) ∧
    splinterdb_update trunk_insert kvs key delta = some (kvs, EINVAL) ∧
    splinterdb_lookup trunk_lookup kvs key acc = some (acc, EINVAL) := by
  have hv : validate_key_length kvs key.length = EINVAL := by
    simp [validate_key_length, h]
  refine ⟨?_, ?_, ?_, ?_⟩ <;>
    simp [splinterdb_insert, splinterdb_delete, splinterdb_update,
      splinterdb_lookup, splinterdb_insert_message, hv, EINVAL]

/-- Witness for `point_ops_reject_long_key`: a store declaring
`key_size = 2` rejects the 3-byte key `[1, 2, 3]` on all four operations. -/
theorem point_ops_reject_long_key_witness :
    splinterdb_insert (fun s _ _ => (s + 1, 0)) ⟨2, (0 : Nat)⟩ [1, 2, 3] [9]
        = some (⟨2, 0⟩, EINVAL) ∧
    splinterdb_delete (fun s _ _ => (s + 1, 0)) ⟨2, (0 : Nat)⟩ [1, 2, 3]
        = some (⟨2, 0⟩, EINVAL) ∧
    splinterdb_update (fun s _ _ => (s + 1, 0)) ⟨2, (0 : Nat)⟩ [1, 2, 3] [9]
        = some (⟨2, 0⟩, EINVAL) ∧
    splinterdb_lookup (fun _ _ (a : Nat) => (a + 5, 0)) ⟨2, (0 : Nat)⟩ [1, 2, 3] 0
        = some (0, EINVAL) :=
  point_ops_reject_long_key (fun s _ _ => (s + 1, 0)) (fun _ _ a => (a + 5, 0))
    ⟨2, (0 : Nat)⟩ [1, 2, 3] [9] [9] 0 (by decide)

/-- **C5** — Configuration defaults are applied only to zero fields: after
`splinterdb_config_set_defaults`, every non-zero caller-set field among
the defaulted twelve is unchanged, every zero field takes the listed
default (page 4096, extent 128·4096, `O_RDWR|O_CREAT`, perms 0o755, queue
depth 256, rough-count height 1, filter index 256 / remainder 6, memtable
24 MiB, fanout 8, 24 branches, reclaim threshold `U64::MAX`), and the
fields without defaults (filename, cache and disk sizes, data-config, log
and stats flags) pass through untouched. -/
theorem config_set_defaults_only_zero_fields (cfg : splinterdb_config) :
    (splinterdb_config_set_defaults cfg).page_size
        = (if cfg.page_size = 0 then 4096 else cfg.page_size) ∧
    (splinterdb_config_set_defaults cfg).extent_size
        = (if cfg.extent_size = 0 then 128 * 4096 else cfg.extent_size) ∧
    (splinterdb_config_set_defaults cfg).io_flags
        = (if cfg.io_flags = 0 then O_RDWR ||| O_CREAT else cfg.io_flags) ∧
    (splinterdb_config_set_defaults cfg).io_perms
        = (if cfg.io_perms = 0 then 493 else cfg.io_perms) ∧
    (splinterdb_config_set_defaults cfg).io_async_queue_depth
        = (if cfg.io_async_queue_depth = 0 then 256 else cfg.io_async_queue_depth) ∧
    (splinterdb_config_set_defaults cfg).btree_rough_count_height
        = (if cfg.btree_rough_count_height = 0 then 1 else cfg.btree_rough_count_height) ∧
    (splinterdb_config_set_defaults cfg).filter_index_size
        = (if cfg.filter_index_size = 0 then 256 else cfg.filter_index_size) ∧
    (splinterdb_config_set_defaults cfg).filter_remainder_size
        = (if cfg.filter_remainder_size = 0 then 6 else cfg.filter_remainder_size) ∧
    (splinterdb_config_set_defaults cfg).memtable_capacity
        = (if cfg.memtable_capacity = 0 then 25165824 else cfg.memtable_capacity) ∧
    (splinterdb_config_set_defaults cfg).fanout
        = (if cfg.fanout = 0 then 8 else cfg.fanout) ∧
    (splinterdb_config_set_defaults cfg).max_branches_per_node
        = (if cfg.max_branches_per_node = 0 then 24 else cfg.max_branches_per_node) ∧
    (splinterdb_config_set_defaults cfg).reclaim_threshold
        = (if cfg.reclaim_threshold = 0 then 18446744073709551615 else cfg.reclaim_threshold) ∧
    (splinterdb_config_set_defaults cfg).filename = cfg.filename ∧
    (splinterdb_config_set_defaults cfg).cache_size = cfg.cache_size ∧
    (splinterdb_config_set_defaults cfg).disk_size = cfg.disk_size ∧
    (splinterdb_config_set_defaults cfg).data_cfg = cfg.data_cfg ∧
    (splinterdb_config_set_defaults cfg).use_log = cfg.use_log ∧
    (splinterdb_config_set_defaults cfg).use_stats = cfg.use_stats := by
  refine ⟨rfl, rfl, rfl, ?_, rfl, rfl, rfl, rfl, ?_, rfl, rfl, ?_,
    rfl, rfl, rfl, rfl, rfl, rfl⟩ <;> norm_num [splinterdb_config_set_defaults]

/-- **C6 counterexample** — open-time validation does not return BadParam
on every §3-invariant violation: `cfg_zero_min_key` violates the claimed
invariant `0 < min_key_length` (its `min_key_length` is 0, exactly the
shape `default_data_config_init` produces), yet validation succeeds and
`splinterdb_create_or_open` proceeds past validation instead of returning
BadParam. -/
theorem open_accepts_zero_min_key_length :
    cfg_zero_min_key.data_cfg.min_key_length = 0 ∧
    splinterdb_init_config_validate cfg_zero_min_key = ValidateOutcome.ok ∧
    splinterdb_create_or_open (0, some 1) cfg_zero_min_key none = some (0, some 1) := by
  refine ⟨rfl, ?_, ?_⟩ <;>
    simp [cfg_zero_min_key, splinterdb_init_config_validate,
      splinterdb_create_or_open, splinterdb_validate_app_data_config,
      SPLINTERDB_MAX_KEY_SIZE, slice_lex_cmp, List.replicate]

/-- **C6 (amended)** — Open-time parameter validation, as the code
implements it: the only AppDataConfig violation answered with BadParam is
`key_size > SPLINTERDB_MAX_KEY_SIZE` (with `key_size = 0` a fatal assert);
zero `min_key_length` is accepted; zero `max_key_length`, key lengths
above `key_size`, and `min_key` not comparing below `max_key` are fatal
assertions, not BadParam returns; a null filename or zero `cache_size` or
`disk_size` returns BadParam; whenever validation does not succeed the
call either returns 22 with the caller's out-parameter untouched or aborts,
so no store is published. -/
theorem open_validation_behavior (cfg : splinterdb_config)
    (rest : Nat × Option Nat) (out0 : Option Nat)
    (h : splinterdb_init_config_validate cfg ≠ ValidateOutcome.ok) :
    splinterdb_create_or_open rest cfg out0
        = (if splinterdb_init_config_validate cfg = ValidateOutcome.badParam
           then some (EINVAL, out0) else none) ∧
    (splinterdb_init_config_validate cfg = ValidateOutcome.badParam ↔
      ((cfg.data_cfg.key_size ≠ 0 ∧
          cfg.data_cfg.key_size > SPLINTERDB_MAX_KEY_SIZE) ∨
       (splinterdb_validate_app_data_config cfg.data_cfg = ValidateOutcome.ok ∧
          (cfg.filename = none ∨ cfg.cache_size = 0 ∨ cfg.disk_size = 0)))) := by
  constructor
  · unfold splinterdb_create_or_open
    rcases hv : splinterdb_init_config_validate cfg with _ | _ | _ <;>
      simp_all
  · unfold splinterdb_init_config_validate splinterdb_validate_app_data_config
    unfold splinterdb_init_config_validate at h
    split_ifs <;> simp_all

/-- Witness for `open_validation_behavior`: a configuration whose
`key_size` (200) exceeds `SPLINTERDB_MAX_KEY_SIZE` yields BadParam (22)
and leaves the caller's out-parameter untouched. -/
theorem open_validation_behavior_witness :
    splinterdb_create_or_open (0, some 1)
        { cfg_zero_min_key with
            data_cfg := { cfg_zero_min_key.data_cfg with key_size := 200 } } none
      = (if splinterdb_init_config_validate
              { cfg_zero_min_key with
                  data_cfg := { cfg_zero_min_key.data_cfg with key_size := 200 } }
            = ValidateOutcome.badParam
         then some (EINVAL, none) else none) ∧
    (splinterdb_init_config_validate
          { cfg_zero_min_key with
              data_cfg := { cfg_zero_min_key.data_cfg with key_size := 200 } }
        = ValidateOutcome.badParam ↔
      ((({ cfg_zero_min_key with
            data_cfg := { cfg_zero_min_key.data_cfg with key_size := 200 }
          } : splinterdb_config).data_cfg.key_size ≠ 0 ∧
          ({ cfg_zero_min_key with
              data_cfg := { cfg_zero_min_key.data_cfg with key_size := 200 }
            } : splinterdb_config).data_cfg.key_size > SPLINTERDB_MAX_KEY_SIZE) ∨
       (splinterdb_validate_app_data_config
            ({ cfg_zero_min_key with
                data_cfg := { cfg_zero_min_key.data_cfg with key_size := 200 }
              } : splinterdb_config).data_cfg = ValidateOutcome.ok ∧
          (({ cfg_zero_min_key with
                data_cfg := { cfg_zero_min_key.data_cfg with key_size := 200 }
              } : splinterdb_config).filename = none ∨
           ({ cfg_zero_min_key with
                data_cfg := { cfg_zero_min_key.data_cfg with key_size := 200 }
              } : splinterdb_config).cache_size = 0 ∨
           ({ cfg_zero_min_key with
                data_cfg := { cfg_zero_min_key.data_cfg with key_size := 200 }
              } : splinterdb_config).disk_size = 0)))) :=
  open_validation_behavior
    { cfg_zero_min_key with
        data_cfg := { cfg_zero_min_key.data_cfg with key_size := 200 } }
    (0, some 1) none
    (by simp [cfg_zero_min_key, splinterdb_init_config_validate,
          splinterdb_validate_app_data_config, SPLINTERDB_MAX_KEY_SIZE])

/-- **C7 counterexample** — a second call to `splinterdb_close` on the
already-nulled pointer is not a no-op: `platform_assert(kvs != NULL)`
fails and the process aborts (`none`), so in particular the call does not
return normally with the pointer left null. -/
theorem close_on_null_pointer_asserts :
    splinterdb_close none = none ∧
    splinterdb_close none ≠ some ([], none) := by
  exact ⟨rfl, by simp [splinterdb_close]⟩

/-- **C7 (amended)** — Close protocol: on an open store, `splinterdb_close`
performs the teardown steps in exactly the order unmount trunk, deinit
cache, unmount allocator, deinit io handle, destroy task system, destroy
heap, then nulls the caller's pointer, returning no error; but a second
call on the already-nulled pointer is a fatal assertion (the caller must
check), not a no-op. -/
theorem close_teardown_order (h : Nat) :
    splinterdb_close (some h)
        = some ([TeardownStep.unmount_trunk, TeardownStep.deinit_cache,
                 TeardownStep.unmount_allocator, TeardownStep.deinit_io_handle,
                 TeardownStep.destroy_task_system, TeardownStep.destroy_heap],
                none) ∧
    splinterdb_close none = none := ⟨rfl, rfl⟩

/-- **C8** — the code contradicts the claim at its own failure path: with
the wrapper freshly allocated at address 7, the caller's uninitialized
`*iter` holding 3, and `trunk_range_iterator_init` failing with status 5,
the function does deinit the underlying iterator, return the non-zero
code, and leave `*iter` without a valid iterator — but it frees the
caller's stale pointer 3 instead of the wrapper, which stays allocated
(leaked) on the heap. -/
theorem iterator_init_failure_frees_wrong_pointer :
    splinterdb_iterator_init [] 7 true (some 3) none 5
        = ⟨5, [7], [3], true, some 3⟩ ∧
    7 ∈ (splinterdb_iterator_init [] 7 true (some 3) none 5).heap ∧
    7 ∉ (splinterdb_iterator_init [] 7 true (some 3) none 5).freed := by
  decide

/-- **C9 counterexample** — `encode_message` does *not* reject the Update
kind: encoding an Update message into a buffer with room succeeds with
return code 0 (and records the encoded length), refuting "encoding a
message of kind Update is rejected at encode time". -/
theorem encode_message_accepts_update :
    encode_message MESSAGE_TYPE_UPDATE [7] (List.replicate 10 0)
      = (0, MESSAGE_TYPE_UPDATE :: [7] ++ List.replicate 8 0, some 2) := by
  decide

/-- **C9 (amended)** — Default data-config blind-mutation-free policy, as
the code implements it: `message_class` classifies only Insert and Delete
(any other tag, Update included, is a fatal assert, `none`), and
`encode_message` accepts *every* type code — Update included — succeeding
whenever the buffer has capacity; the rejection of Update happens at
classification time, not at encode time. -/
theorem default_config_message_kinds :
    (∀ rest : List Nat,
        message_class (MESSAGE_TYPE_INSERT :: rest) = some MESSAGE_TYPE_INSERT) ∧
    (∀ rest : List Nat,
        message_class (MESSAGE_TYPE_DELETE :: rest) = some MESSAGE_TYPE_DELETE) ∧
    (∀ rest : List Nat, message_class (MESSAGE_TYPE_UPDATE :: rest) = none) ∧
    (∀ t raw, message_class raw = some t →
        t = MESSAGE_TYPE_INSERT ∨ t = MESSAGE_TYPE_DELETE) ∧
    (∀ (value dst : List Nat) (ty : Nat),
        value.length + 1 ≤ dst.length →
        (encode_message ty value dst).1 = 0) := by
  refine ⟨?_, ?_, ?_, ?_, ?_⟩
  · intro rest; simp [message_class, MESSAGE_TYPE_INSERT]
  · intro rest
    simp [message_class, MESSAGE_TYPE_INSERT, MESSAGE_TYPE_DELETE]
  · intro rest
    simp [message_class, MESSAGE_TYPE_INSERT, MESSAGE_TYPE_DELETE,
      MESSAGE_TYPE_UPDATE]
  · intro t raw h
    unfold message_class at h
    split_ifs at h with h1 h2
    · exact Or.inl (Option.some.inj h).symm
    · exact Or.inr (Option.some.inj h).symm
  · intro value dst ty hle
    simp [encode_message, Nat.not_lt.mpr hle]

/-- Witness for `default_config_message_kinds` at concrete messages. -/
theorem default_config_message_kinds_witness :
    message_class (MESSAGE_TYPE_INSERT :: [5]) = some MESSAGE_TYPE_INSERT ∧
    message_class (MESSAGE_TYPE_UPDATE :: [5]) = none ∧
    (encode_message MESSAGE_TYPE_UPDATE [5] (List.replicate 4 0)).1 = 0 :=
  ⟨default_config_message_kinds.1 [5],
   default_config_message_kinds.2.2.1 [5],
   default_config_message_kinds.2.2.2.2 [5] (List.replicate 4 0)
     MESSAGE_TYPE_UPDATE (by decide)⟩

/-- **C10** — `encode_message` stores the type byte before checking
capacity: whenever the destination is non-empty but too small
(`value_len + 1 > dst.length`), the call returns `EINVAL` with the
destination's first byte already overwritten by the type tag, the rest of
the buffer untouched, and the encoded-length out-parameter unwritten; in
particular if the old first byte differed from the tag the destination is
not left unchanged on error (unlike `encode_key`). -/
theorem encode_message_writes_tag_before_capacity_check
    (ty : Nat) (value dst : List Nat)
    (h1 : 1 ≤ dst.length) (h2 : dst.length < value.length + 1) :
    (encode_message ty value dst).1 = EINVAL ∧
    (encode_message ty value dst).2.1.headD 0 = ty % 256 ∧
    (encode_message ty value dst).2.1.tail = dst.tail ∧
    (encode_message ty value dst).2.2 = none ∧
    (dst.headD 0 ≠ ty % 256 → (encode_message ty value dst).2.1 ≠ dst) := by
  rcases dst with _ | ⟨a, rest⟩
  · simp at h1
  · have hcond : value.length + 1 > (a :: rest).length := h2
    have henc : encode_message ty value (a :: rest)
        = (EINVAL, (ty % 256) :: rest, none) := by
      have hlt : rest.length < value.length := by
        simp at hcond; omega
      simp [encode_message, hlt]
    refine ⟨by rw [henc], by rw [henc]; rfl, by rw [henc]; rfl,
      by rw [henc], ?_⟩
    intro hne hcontra
    rw [henc] at hcontra
    simp only [List.cons.injEq] at hcontra
    simp only [List.headD_cons] at hne
    exact hne hcontra.1.symm

/-- Witness for `encode_message_writes_tag_before_capacity_check` at a
concrete overfull call: two payload bytes into a two-byte buffer. -/
theorem encode_message_writes_tag_witness :
    (encode_message 3 [7, 8] [0, 0]).1 = EINVAL ∧
    (encode_message 3 [7, 8] [0, 0]).2.1.headD 0 = 3 % 256 ∧
    (encode_message 3 [7, 8] [0, 0]).2.1.tail = [0, 0].tail ∧
    (encode_message 3 [7, 8] [0, 0]).2.2 = none ∧
    (([0, 0] : List Nat).headD 0 ≠ 3 % 256 → (encode_message 3 [7, 8] [0, 0]).2.1 ≠ [0, 0]) :=
  encode_message_writes_tag_before_capacity_check 3 [7, 8] [0, 0]
    (by decide) (by decide)

end SplinterDB
